import Mathlib

/-!
# Verification of the sentinel2_downloader client

Shallow embedding of the `sentinel2_downloader` repository:

* `SentinelAPI.query` and `SentinelAPI.download` from
  `sentinel2_downloader/sentinel.py` (the chunked, progress-reporting
  variant; `sentinel/sentinel.py` differs only in writing the body in one
  piece),
* `ApiClient.authorize`, `Sentinel2Downloader.create_url_process`,
  `Sentinel2Downloader.get_products`, `Sentinel2Downloader.execute`
  from `sentinel2_downloader/sentinelv2.py`.

HTTP traffic is modelled by pure response values: a token request is a
`TokenResponse`, a catalog request a `CatalogResponse`, and the download
session a deterministic server function `String → DlResponse` mapping each
requested URL to the response the remote host gives for it.  Python
exceptions become `Except` values; the filesystem is a partial map from
paths to byte lists.  Machine details (TLS, sockets, tqdm rendering,
pandas framing) are outside the embedded behaviour; what is kept is the
control flow, the strings built, the bytes written and the counters kept.
-/

namespace S2D

/-- One record of the catalog JSON `value` array: the fields the client
reads (`Id`, `Name`, `Online`). -/
structure Product where
  id : String
  name : String
  online : Bool
deriving DecidableEq, Repr

/-- A catalog (search) HTTP response: status code and parsed `value` array. -/
structure CatalogResponse where
  status : Nat
  value : List Product
deriving DecidableEq, Repr

/-- The loop body of `SentinelAPI.query` (sentinel.py lines 72-75):
iterate over the `value` array; at the first product whose `Online` flag is
truthy, return the whole array; falling off the end of the loop returns
Python `None`. -/
def queryScan (full : List Product) : List Product → Option (List Product)
  | [] => none
  | p :: rest => if p.online then some full else queryScan full rest

/-- `SentinelAPI.query` (sentinel.py lines 38-79).  All six parameters are
required to be truthy (non-empty) or the function raises; on a 200 response
it runs the `Online` scan over the `value` array; on any other status it
returns `None`.  The `Except` layer models the `raise` on missing
parameters; `Option` models Python `None`. -/
def query (footprint start_date end_date product_type cloud_cover_percentage
    platform_name : String) (resp : CatalogResponse) :
    Except String (Option (List Product)) :=
  if footprint ≠ "" ∧ start_date ≠ "" ∧ end_date ≠ "" ∧ platform_name ≠ ""
      ∧ cloud_cover_percentage ≠ "" ∧ product_type ≠ "" then
    if resp.status = 200 then .ok (queryScan resp.value resp.value)
    else .ok none
  else .error "parameter 'year or land_type' is required"

/-- If some member of the scanned list is online, the scan returns the full
list unchanged. -/
theorem queryScan_mem_online (full : List Product) (l : List Product)
    (p : Product) (hp : p ∈ l) (ho : p.online = true) :
    queryScan full l = some full := by
  induction l with
  | nil => cases hp
  | cons q rest ih =>
    rcases List.mem_cons.mp hp with h | h
    · subst h
      simp [queryScan, ho]
    · by_cases hq : q.online
      · simp [queryScan, hq]
      · simp [queryScan, hq, ih h]

/-- If no member of the scanned list is online, the scan falls through and
returns `none`. -/
theorem queryScan_none (full : List Product) (l : List Product)
    (h : ∀ p ∈ l, p.online = false) :
    queryScan full l = none := by
  induction l with
  | nil => rfl
  | cons q rest ih =>
    have hq : q.online = false := h q (List.mem_cons_self _ _)
    simp [queryScan, hq]
    exact ih fun p hp => h p (List.mem_cons_of_mem _ hp)

/-- Configuration held by `Sentinel2Downloader` after `set_config`
(sentinelv2.py lines 81-113).  `cloud_cover_percentage` is an `int` in the
source and is rendered into the URL with `toString`. -/
structure Config where
  start_date : String
  end_date : String
  data_collection : String
  aoi : String
  cloud_cover_percentage : Nat
  product_type : String
  download_path : String
deriving DecidableEq, Repr

/-- The collection-name equality clause of the f-string of
sentinelv2.py line 122 (verbatim fragment). -/
def collectionClause (c : Config) : String :=
  "Collection/Name eq '" ++ c.data_collection ++ "'"

/-- The spatial-intersection clause of the f-string (verbatim fragment),
mentioning the footprint.  The source splices `{self.aoi})` with no
closing quote of its own (the example AOI carries a trailing quote). -/
def spatialClause (c : Config) : String :=
  "OData.CSC.Intersects(area=geography'SRID=4326;" ++ c.aoi ++ ")"

/-- The start-date bound clause of the f-string (verbatim fragment): a
strict `gt` against the midnight-UTC timestamp of the start date. -/
def startClause (c : Config) : String :=
  "ContentDate/Start gt " ++ c.start_date ++ "T00:00:00.000Z"

/-- The end-date bound clause of the f-string (verbatim fragment): a
strict `lt` against the midnight-UTC timestamp of the end date. -/
def endClause (c : Config) : String :=
  "ContentDate/Start lt " ++ c.end_date ++ "T00:00:00.000Z"

/-- The cloud-cover ceiling clause of the f-string (verbatim fragment). -/
def cloudClause (c : Config) : String :=
  "Attributes/OData.CSC.DoubleAttribute/any(att:att/Name eq 'cloudCover' and att/OData.CSC.DoubleAttribute/Value lt "
    ++ toString c.cloud_cover_percentage ++ ")"

/-- The product-type substring clause of the f-string (verbatim fragment). -/
def typeClause (c : Config) : String :=
  "contains(Name,'" ++ c.product_type ++ "')"

/-- `Sentinel2Downloader.create_url_process` (sentinelv2.py lines 115-123):
the f-string that builds the OData query URL, rendered as string
concatenation and split at its ` and ` separators; the named fragments
above are verbatim pieces of line 122, so concatenating this definition
reproduces that line character for character (with
`cloud_cover_percentage` rendered by `toString`, as the f-string renders
the `int`). -/
def create_url_process (c : Config) : String :=
  "https://catalogue.dataspace.copernicus.eu/odata/v1/Products?$filter="
    ++ collectionClause c ++ " and " ++ spatialClause c ++ " and "
    ++ startClause c ++ " and " ++ endClause c ++ " and "
    ++ cloudClause c ++ " and " ++ typeClause c

/-- `hay` contains `needle` as a contiguous substring. -/
def strContains (hay needle : String) : Prop :=
  ∃ a b : String, hay = a ++ needle ++ b

/-- Does `hay` begin with `needle`? (character-list level, executable). -/
def leadEq : List Char → List Char → Bool
  | [], _ => true
  | _ :: _, [] => false
  | a :: as, b :: bs => a = b && leadEq as bs

/-- Number of (possibly overlapping) occurrences of `needle` at the
positions of `hay`; used to count how often a clause appears in a built
URL. -/
def countSub (needle : List Char) : List Char → Nat
  | [] => 0
  | b :: t => (if leadEq needle (b :: t) then 1 else 0) + countSub needle t

/-- OData denotation of the pair of date clauses the builder emits
(`ContentDate/Start gt <start>T00:00:00.000Z and ContentDate/Start lt
<end>T00:00:00.000Z`): with `s` and `e` the midnight-UTC timestamps of the
two dates and `t` an acquisition start time, the product passes iff
`s < t` and `t < e` — both comparisons strict, as `gt`/`lt` are. -/
def dateFilterSem (s e t : Int) : Bool :=
  decide (s < t) && decide (t < e)

/-- Modelled from the spec: the date constraint the specification claims,
`start <= date < end` — start bound inclusive, end bound exclusive, at the
same midnight-UTC timestamps. -/
def specDateSem (s e t : Int) : Bool :=
  decide (s ≤ t) && decide (t < e)

/-- One HTTP response of the download session: status code, optional
`Location` header, and body bytes. -/
structure DlResponse where
  status : Nat
  location : Option String
  body : List Nat
deriving DecidableEq, Repr

/-- Failure modes of the embedded `SentinelAPI.download`.  The source
raises `requests.exceptions.RequestException` in all of these situations
except `fuelExhausted`, which is a modelling artifact: the source's
redirect `while` loop has no bound at all, and the fuel-indexed embedding
reports `fuelExhausted` when the loop is still running after `fuel` hops.
There is no redirect-loop error anywhere in the source. -/
inductive DlErr where
  | noSuchProduct
  | missingLocation
  | fuelExhausted
  | badStatus (s : Nat)
deriving DecidableEq, Repr

/-- `response_download.status_code in (301, 302, 303, 307)`: the loop
guard of the redirect `while` loop. -/
def isRedirect (s : Nat) : Bool :=
  s = 301 || s = 302 || s = 303 || s = 307

/-- The redirect `while` loop of `SentinelAPI.download` (sentinel.py lines
99-101): while the status is 301/302/303/307, set `url` to the `Location`
header and re-issue the GET.  `fuel` bounds the number of hops the
embedding will follow; the source has no such bound, so running out of
fuel (`fuelExhausted`) means the source loop is still running at that
point.  Returns the final value of the `url` variable (the last `Location`
followed, or the initial `url` if no redirect happened). -/
def followRedirects (server : String → DlResponse) :
    Nat → String → DlResponse → Except DlErr String
  | 0, url, r => if isRedirect r.status then .error .fuelExhausted else .ok url
  | fuel + 1, url, r =>
    if isRedirect r.status then
      match r.location with
      | none => .error .missingLocation
      | some loc => followRedirects server fuel loc (server loc)
    else .ok url

/-- `response.iter_content(1024)`: the body split into successive chunks of
1024 bytes (the last chunk may be shorter). -/
def chunksOf : List Nat → List (List Nat)
  | [] => []
  | a :: rest => ((a :: rest).take 1024) :: chunksOf ((a :: rest).drop 1024)
termination_by l => l.length
decreasing_by simp [List.length_drop]; omega

/-- The progress counter: `downloaded_size`/`progress_bar.update` summed
over the chunks, i.e. the sum of `len(data)` over `iter_content`. -/
def sumLens : List (List Nat) → Nat
  | [] => 0
  | c :: cs => c.length + sumLens cs

/-- Writing the chunks back to back reproduces the body. -/
theorem chunksOf_join (l : List Nat) : (chunksOf l).flatten = l := by
  match l with
  | [] => simp [chunksOf]
  | a :: rest =>
    rw [chunksOf]
    have ih := chunksOf_join ((a :: rest).drop 1024)
    simp only [List.flatten_cons, ih]
    exact List.take_append_drop _ _
termination_by l.length
decreasing_by simp [List.length_drop]; omega

/-- The progress total is the body length. -/
theorem sumLens_chunksOf (l : List Nat) : sumLens (chunksOf l) = l.length := by
  match l with
  | [] => simp [chunksOf, sumLens]
  | a :: rest =>
    rw [chunksOf]
    have ih := sumLens_chunksOf ((a :: rest).drop 1024)
    simp only [sumLens, ih, List.length_take, List.length_drop]
    omega
termination_by l.length
decreasing_by simp [List.length_drop]; omega

/-- The filesystem: a map from paths to file contents (byte lists). -/
def FS : Type := String → Option (List Nat)

/-- An empty filesystem. -/
def emptyFS : FS := fun _ => none

/-- `open(path, 'wb')` followed by writing `contents`: mode `wb` truncates,
so the new contents replace whatever was at `path` before. -/
def writeFileW (fs : FS) (path : String) (contents : List Nat) : FS :=
  fun q => if q = path then some contents else fs q

/-- `[p for p in product_list if p['Id'] == product_id][0]['Name']`
(sentinel.py line 93): the name of the first product whose id matches, or
an `IndexError` (here `none`) if no product matches. -/
def findName (plist : List Product) (pid : String) : Option String :=
  match plist.filter (fun p => p.id = pid) with
  | [] => none
  | p :: _ => some p.name

/-- `SentinelAPI.download` (sentinel.py lines 81-136).  The session is the
deterministic server function; the initial GET goes to
`{api_url}({product_id})/$value`; the redirect loop runs; then the source
re-issues a GET to the final `url` value (with `allow_redirects=True`; the
scenarios verified here give a non-redirect answer at that URL, so the
re-issued GET is modelled as a single request).  On a 200 the body is
written to `{directory_path}/{product_name}.zip` in 1024-byte chunks while
the progress counter adds up the chunk lengths; on any other status the
call raises.  Returns the new filesystem, the path written, the bytes
written and the progress total. -/
def download (server : String → DlResponse) (fs : FS) (api_url : String)
    (plist : List Product) (pid directory_path : String) (fuel : Nat) :
    Except DlErr (FS × String × List Nat × Nat) :=
  match findName plist pid with
  | none => .error .noSuchProduct
  | some product_name =>
    match followRedirects server fuel api_url
        (server (api_url ++ "(" ++ pid ++ ")/$value")) with
    | .error e => .error e
    | .ok url =>
      let rf := server url
      if rf.status = 200 then
        let chunks := chunksOf rf.body
        let path := directory_path ++ "/" ++ product_name ++ ".zip"
        .ok (writeFileW fs path chunks.flatten, path, chunks.flatten, sumLens chunks)
      else .error (.badStatus rf.status)

/-- A token-endpoint HTTP response: status code and JSON body rendered as
a key/value list. -/
structure TokenResponse where
  status : Nat
  body : List (String × String)
deriving DecidableEq, Repr

/-- `ApiClient.authorize` (sentinelv2.py lines 23-39).  The method performs
exactly one `requests.post`; the second component of the result is that
network-call count (always 1 — there is no retry loop in the source).
`raise_for_status` raises for 4xx/5xx, which the `except` wraps into
`Access token creation failed: ...` carrying the error detail; on a
non-error status the method returns `r.json()["access_token"]`, a `KeyError`
(outside the `try`) if the field is absent. -/
def authorize (r : TokenResponse) : Except String String × Nat :=
  ( if 400 ≤ r.status ∧ r.status < 600 then
      .error ("Access token creation failed: HTTPError " ++ toString r.status)
    else
      match r.body.lookup "access_token" with
      | some t => .ok t
      | none => .error "KeyError: access_token"
  , 1)

/-- `Sentinel2Downloader.get_products` (sentinelv2.py lines 125-137):
`pd.DataFrame.from_dict(json["value"]).head(5)` — the first five rows of
the `value` array. -/
def get_products (value : List Product) : List Product :=
  value.take 5

/-- The download loop of `Sentinel2Downloader.execute` (sentinelv2.py lines
180-182) under the surrounding `try`/`except` (lines 173-184): each product
id is passed to `download_product` in order; `download_product` re-raises
on failure, and the exception propagates out of the `for` loop to the
top-level `except`, which prints it.  `ok pid` tells whether the download
of `pid` succeeds.  Returns the list of product ids for which a download
was attempted: the failing product is attempted, everything after it is
not. -/
def execAttempts (ok : String → Bool) : List String → List String
  | [] => []
  | p :: rest => if ok p then p :: execAttempts ok rest else [p]

/-- `Sentinel2Downloader.execute` (sentinelv2.py lines 169-184), reduced to
the download attempts it makes: the ids come from the `Id` column of the
`get_products` frame, and the loop stops at the first failing download. -/
def executeAttempts (ok : String → Bool) (value : List Product) : List String :=
  execAttempts ok ((get_products value).map Product.id)

/-- `execAttempts` attempts no more products than it was given. -/
theorem execAttempts_length_le (ok : String → Bool) (l : List String) :
    (execAttempts ok l).length ≤ l.length := by
  induction l with
  | nil => simp [execAttempts]
  | cons p rest ih =>
    by_cases hp : ok p
    · simp only [execAttempts, hp, if_pos, List.length_cons]
      omega
    · have hp' : ok p = false := by
        cases h : ok p with
        | false => rfl
        | true => exact absurd h hp
      simp only [execAttempts, hp', Bool.false_eq_true, if_false,
        List.length_cons, List.length_nil]
      omega

/-- After a prefix of successes followed by one failure, the attempted
products are exactly that prefix and the failing product. -/
theorem execAttempts_stops_at_failure (ok : String → Bool)
    (pre : List String) (p : String) (post : List String)
    (hpre : ∀ q ∈ pre, ok q = true) (hp : ok p = false) :
    execAttempts ok (pre ++ p :: post) = pre ++ [p] := by
  induction pre with
  | nil => simp [execAttempts, hp]
  | cons q rest ih =>
    have hq : ok q = true := hpre q (List.mem_cons_self _ _)
    simp only [List.cons_append, execAttempts, hq, if_pos, List.cons.injEq,
      true_and]
    exact ih fun r hr => hpre r (List.mem_cons_of_mem _ hr)

/-! ## Claim C1 -/

/-- C1, counterexample: a 200 catalog response with the non-empty value
array `[{Id:"i", Name:"n", Online:false}]` (no record Online) makes
`SentinelAPI.query` return `None`, not the full list — the result depends
on the `Online` flags, contradicting the claim that the same complete list
is returned whether or not any record has `Online` true. -/
theorem C1_counterexample :
    query "f" "s" "e" "t" "c" "p" ⟨200, [⟨"i", "n", false⟩]⟩ = .ok none ∧
    query "f" "s" "e" "t" "c" "p" ⟨200, [⟨"i", "n", false⟩]⟩ ≠
      .ok (some [⟨"i", "n", false⟩]) := by
  constructor
  · rfl
  · intro h
    simp [query, queryScan] at h

/-- C1 (amended): for a 200 catalog response whose value array contains at
least one record with `Online` true, `SentinelAPI.query` returns the full
unfiltered value array; when no record is online it returns `None`
(see `C1_counterexample`). -/
theorem C1_query_unfiltered_when_some_online
    (f s e t c pl : String) (resp : CatalogResponse) (p : Product)
    (hf : f ≠ "") (hs : s ≠ "") (he : e ≠ "") (hpl : pl ≠ "")
    (hc : c ≠ "") (ht : t ≠ "")
    (h200 : resp.status = 200) (hp : p ∈ resp.value) (ho : p.online = true) :
    query f s e t c pl resp = .ok (some resp.value) := by
  unfold query
  rw [if_pos ⟨hf, hs, he, hpl, hc, ht⟩, if_pos h200,
    queryScan_mem_online resp.value resp.value p hp ho]

/-- C1, witness: the amended theorem evaluated at a concrete 200 response
with one online record. -/
theorem C1_witness :
    query "f" "s" "e" "t" "c" "p" ⟨200, [⟨"i", "n", true⟩]⟩ =
      .ok (some [⟨"i", "n", true⟩]) :=
  C1_query_unfiltered_when_some_online "f" "s" "e" "t" "c" "p"
    ⟨200, [⟨"i", "n", true⟩]⟩ ⟨"i", "n", true⟩
    (by decide) (by decide) (by decide) (by decide) (by decide) (by decide)
    rfl (List.mem_cons_self _ _) rfl

/-! ## Claim C7 -/

/-- C7, counterexample: a 500 catalog response makes `SentinelAPI.query`
return the ordinary value `None` (`.ok none`) — no exception is raised and
no `CatalogQueryError` exists anywhere in the source, contradicting the
claim that a non-200 response raises a `CatalogQueryError` including the
response body. -/
theorem C7_counterexample :
    query "f" "s" "e" "t" "c" "p" ⟨500, [⟨"i", "n", true⟩]⟩ = .ok none := rfl

/-- C7 (amended): for every catalog response with a status other than 200
(and all six parameters non-empty), `SentinelAPI.query` returns `None`
(a non-error value); no error is raised. -/
theorem C7_query_non200_returns_none
    (f s e t c pl : String) (resp : CatalogResponse)
    (hf : f ≠ "") (hs : s ≠ "") (he : e ≠ "") (hpl : pl ≠ "")
    (hc : c ≠ "") (ht : t ≠ "")
    (hst : resp.status ≠ 200) :
    query f s e t c pl resp = .ok none := by
  unfold query
  rw [if_pos ⟨hf, hs, he, hpl, hc, ht⟩, if_neg hst]

/-- C7, witness: the amended theorem evaluated at a concrete 404 response. -/
theorem C7_witness :
    query "f" "s" "e" "t" "c" "p" ⟨404, [⟨"i", "n", true⟩]⟩ = .ok none :=
  C7_query_non200_returns_none "f" "s" "e" "t" "c" "p"
    ⟨404, [⟨"i", "n", true⟩]⟩
    (by decide) (by decide) (by decide) (by decide) (by decide) (by decide)
    (by decide)

/-! ## Claim C4 -/

/-- C4, counterexample: a run whose catalog search returns ids
`["p1", "p2"]` in which the download of `"p1"` fails attempts only
`["p1"]` — `"p2"` is never attempted, because `download_product` re-raises
and the exception propagates past the `for` loop to the top-level
`except`.  This contradicts the claim that a download is still attempted
for each remaining product. -/
theorem C4_counterexample :
    executeAttempts (fun p => decide (p ≠ "p1"))
        [⟨"p1", "n1", true⟩, ⟨"p2", "n2", true⟩] = ["p1"] ∧
    "p2" ∉ executeAttempts (fun p => decide (p ≠ "p1"))
        [⟨"p1", "n1", true⟩, ⟨"p2", "n2", true⟩] := by
  constructor
  · rfl
  · decide

/-- C4 (amended): when the downloads of a prefix of the returned ids
succeed and the next download fails, `Sentinel2Downloader.execute` attempts
exactly that prefix plus the failing product: products after the first
failure are not attempted (the exception is swallowed by the top-level
`except`, so the run itself does not raise). -/
theorem C4_execute_aborts_after_failure (ok : String → Bool)
    (pre : List String) (p : String) (post : List String)
    (hpre : ∀ q ∈ pre, ok q = true) (hp : ok p = false) :
    execAttempts ok (pre ++ p :: post) = pre ++ [p] :=
  execAttempts_stops_at_failure ok pre p post hpre hp

/-- C4, witness: the amended theorem evaluated at a concrete run of three
products whose second download fails. -/
theorem C4_execute_aborts_witness :
    execAttempts (fun p => decide (p ≠ "b")) (["a"] ++ "b" :: ["c"]) =
      ["a"] ++ ["b"] :=
  C4_execute_aborts_after_failure (fun p => decide (p ≠ "b")) ["a"] "b" ["c"]
    (by decide) (by decide)

/-! ## Claim C8 -/

/-- C8: for a token-endpoint response with a 4xx/5xx status,
`ApiClient.authorize` fails with the wrapped authentication error carrying
the server's error detail, and the network-call count is exactly 1 (no
retry); for a 200 response whose body has `access_token` `t`, it returns
exactly `t` (again with a single network call). -/
theorem C8_authorize_spec (r : TokenResponse) :
    (400 ≤ r.status ∧ r.status < 600 →
      (authorize r).2 = 1 ∧
      (authorize r).1 =
        .error ("Access token creation failed: HTTPError " ++ toString r.status)) ∧
    (r.status = 200 → ∀ t, r.body.lookup "access_token" = some t →
      (authorize r).1 = .ok t ∧ (authorize r).2 = 1) := by
  constructor
  · intro h
    simp [authorize, h]
  · intro h200 t ht
    have hne : ¬(400 ≤ r.status ∧ r.status < 600) := by
      rw [h200]; omega
    simp [authorize, hne, ht]

/-- C8, witness: the theorem evaluated at a concrete 401 response and at a
concrete 200 response carrying `access_token` `"T"`. -/
theorem C8_witness :
    ((authorize ⟨401, []⟩).2 = 1 ∧
      (authorize ⟨401, []⟩).1 =
        .error ("Access token creation failed: HTTPError " ++ toString 401)) ∧
    ((authorize ⟨200, [("access_token", "T")]⟩).1 = .ok "T" ∧
      (authorize ⟨200, [("access_token", "T")]⟩).2 = 1) :=
  ⟨(C8_authorize_spec ⟨401, []⟩).1 (by decide),
   (C8_authorize_spec ⟨200, [("access_token", "T")]⟩).2 rfl "T" rfl⟩

/-! ## Claim C10 -/

/-- C10: `Sentinel2Downloader.get_products` keeps only the first
`min(n, 5)` records of the `value` array (`.head(5)`), and consequently a
single `execute` run attempts at most 5 product downloads, whatever the
download outcomes. -/
theorem C10_get_products_head5 (value : List Product) (ok : String → Bool) :
    get_products value = value.take 5 ∧
    (get_products value).length = min value.length 5 ∧
    (executeAttempts ok value).length ≤ 5 := by
  refine ⟨rfl, ?_, ?_⟩
  · simp [get_products, Nat.min_comm]
  · calc (executeAttempts ok value).length
        ≤ ((get_products value).map Product.id).length :=
          execAttempts_length_le _ _
      _ ≤ 5 := by simp [get_products]

/-- One redirect hop: on a 301/302/303/307 response with a `Location`
header, the loop re-issues the GET against that location. -/
theorem followRedirects_step (server : String → DlResponse) (fuel : Nat)
    (url loc : String) (r : DlResponse)
    (hst : isRedirect r.status = true) (hloc : r.location = some loc) :
    followRedirects server (fuel + 1) url r =
      followRedirects server fuel loc (server loc) := by
  simp [followRedirects, hst, hloc]

/-- Loop exit: on any non-redirect status the loop stops, whatever fuel is
left, and hands back the current `url` variable. -/
theorem followRedirects_done (server : String → DlResponse) (fuel : Nat)
    (url : String) (r : DlResponse)
    (hst : isRedirect r.status = false) :
    followRedirects server fuel url r = .ok url := by
  cases fuel <;> simp [followRedirects, hst]

/-- A server that answers every request with a 302 redirect to `"u"`:
a one-hop redirect cycle. -/
def cyclicServer : String → DlResponse := fun _ => ⟨302, some "u", []⟩

/-! ## Claim C3 -/

/-- C3, counterexample: against the cyclic redirect server, after 11 hops
(more than the claimed bound of 10) the redirect loop of
`SentinelAPI.download` is still running — the fuel-indexed embedding
reports `fuelExhausted`, a modelling artifact marking an unfinished loop,
and the source's error type has no redirect-loop failure at all: the
`while` loop of sentinel.py lines 99-101 carries no counter and no bound,
so no `RedirectLoopError` is ever raised. -/
theorem C3_counterexample :
    followRedirects cyclicServer 11 "u" (cyclicServer "u") =
      .error .fuelExhausted := rfl

/-- C3 (amended): the redirect loop has no depth bound and no
`RedirectLoopError`: on a cyclic redirect chain it never terminates — for
every fuel bound `n`, the fuel-indexed embedding of the loop is still
following redirects when the fuel runs out (`fuelExhausted`), rather than
failing with a redirect-loop error.  (The loop terminates only when the
chain reaches a non-redirect response, `followRedirects_done`.) -/
theorem C3_redirect_loop_unbounded (n : Nat) (u : String) :
    followRedirects cyclicServer n u (cyclicServer u) =
      .error .fuelExhausted := by
  induction n generalizing u with
  | zero => rfl
  | succ k ih =>
    rw [show cyclicServer u = ⟨302, some "u", []⟩ from rfl,
      followRedirects_step cyclicServer k u "u" _ (by decide) rfl]
    exact ih "u"

/-- A successful download through exactly one 302 redirect: the body of
the final 200 is written (in 1024-byte chunks) to
`{directory_path}/{product_name}.zip`, and the progress total equals the
number of bytes written. -/
theorem download_one_redirect (server : String → DlResponse) (fs : FS)
    (api pid dir name l : String) (plist : List Product)
    (b c0 : List Nat) (o : Option String) (m : Nat)
    (hn : findName plist pid = some name)
    (h0 : server (api ++ "(" ++ pid ++ ")/$value") = ⟨302, some l, c0⟩)
    (h1 : server l = ⟨200, o, b⟩) :
    download server fs api plist pid dir (m + 1) =
      .ok (writeFileW fs (dir ++ "/" ++ name ++ ".zip") b,
        dir ++ "/" ++ name ++ ".zip", b, b.length) := by
  have hfollow : followRedirects server (m + 1) api
      (server (api ++ "(" ++ pid ++ ")/$value")) = .ok l := by
    rw [h0, followRedirects_step server m api l ⟨302, some l, c0⟩ rfl rfl, h1,
      followRedirects_done server m l ⟨200, o, b⟩ rfl]
  unfold download
  simp only [hn, hfollow, h1]
  simp [chunksOf_join, sumLens_chunksOf]

/-! ## Claim C2 -/

/-- C2: when the resolve GET is answered by a chain of exactly two 302
redirects (with `Location` headers `l1` then `l2`) and the GET to `l2`
answers 200 with body `b`, `SentinelAPI.download` (given fuel for the two
hops) writes the file `{directory_path}/{product_name}.zip` whose contents
equal `b`, and the progress total (the sum of the 1024-byte chunk lengths)
equals the number of bytes written. -/
theorem C2_download_two_redirects (server : String → DlResponse) (fs : FS)
    (api pid dir name l1 l2 : String) (plist : List Product)
    (b c0 c1 : List Nat) (o2 : Option String) (m : Nat)
    (hn : findName plist pid = some name)
    (h0 : server (api ++ "(" ++ pid ++ ")/$value") = ⟨302, some l1, c0⟩)
    (h1 : server l1 = ⟨302, some l2, c1⟩)
    (h2 : server l2 = ⟨200, o2, b⟩) :
    ∃ fs' : FS,
      download server fs api plist pid dir (m + 2) =
        .ok (fs', dir ++ "/" ++ name ++ ".zip", b, b.length) ∧
      fs' (dir ++ "/" ++ name ++ ".zip") = some b := by
  have hfollow : followRedirects server (m + 2) api
      (server (api ++ "(" ++ pid ++ ")/$value")) = .ok l2 := by
    rw [h0, show m + 2 = (m + 1) + 1 from rfl,
      followRedirects_step server (m + 1) api l1 ⟨302, some l1, c0⟩ rfl rfl, h1,
      followRedirects_step server m l1 l2 ⟨302, some l2, c1⟩ rfl rfl, h2,
      followRedirects_done server m l2 ⟨200, o2, b⟩ rfl]
  refine ⟨writeFileW fs (dir ++ "/" ++ name ++ ".zip") b, ?_, ?_⟩
  · unfold download
    simp only [hn, hfollow, h2]
    simp [chunksOf_join, sumLens_chunksOf]
  · simp [writeFileW]

/-- A server answering the resolve GET with a 302 to `L1`, `L1` with a 302
to `L2`, and `L2` with a 200 whose body is `b"abc"` (bytes 97/98/99). -/
def demoServer2 : String → DlResponse := fun u =>
  if u = "API(p1)/$value" then ⟨302, some "L1", []⟩
  else if u = "L1" then ⟨302, some "L2", []⟩
  else if u = "L2" then ⟨200, none, [97, 98, 99]⟩
  else ⟨404, none, []⟩

/-- C2, witness: the theorem evaluated against `demoServer2` — the file
`dl/n1.zip` holds exactly `b"abc"` and the progress total is 3. -/
theorem C2_witness :
    ∃ fs' : FS,
      download demoServer2 emptyFS "API" [⟨"p1", "n1", true⟩] "p1" "dl" 2 =
        .ok (fs', "dl" ++ "/" ++ "n1" ++ ".zip", [97, 98, 99],
          ([97, 98, 99] : List Nat).length) ∧
      fs' ("dl" ++ "/" ++ "n1" ++ ".zip") = some [97, 98, 99] :=
  C2_download_two_redirects demoServer2 emptyFS "API" "p1" "dl" "n1" "L1" "L2"
    [⟨"p1", "n1", true⟩] [97, 98, 99] [] [] none 0
    (by decide) (by decide) (by decide) (by decide)

/-! ## Claim C9 -/

/-- C9: two calls of `SentinelAPI.download` for the same product id and
destination directory, each reaching a 200 (here through one redirect,
with bodies `b1` then `b2`), write the same path both times; the second
call opens the file with mode `wb` (truncating), so afterwards the file
holds exactly `b2` — the second response body alone. -/
theorem C9_download_overwrites (S1 S2 : String → DlResponse) (fs : FS)
    (api pid dir name l1 l2 : String) (plist : List Product)
    (b1 b2 c1 c2 : List Nat) (o1 o2 : Option String) (m1 m2 : Nat)
    (hn : findName plist pid = some name)
    (h10 : S1 (api ++ "(" ++ pid ++ ")/$value") = ⟨302, some l1, c1⟩)
    (h11 : S1 l1 = ⟨200, o1, b1⟩)
    (h20 : S2 (api ++ "(" ++ pid ++ ")/$value") = ⟨302, some l2, c2⟩)
    (h21 : S2 l2 = ⟨200, o2, b2⟩) :
    ∃ fs1 fs2 : FS,
      download S1 fs api plist pid dir (m1 + 1) =
        .ok (fs1, dir ++ "/" ++ name ++ ".zip", b1, b1.length) ∧
      download S2 fs1 api plist pid dir (m2 + 1) =
        .ok (fs2, dir ++ "/" ++ name ++ ".zip", b2, b2.length) ∧
      fs2 (dir ++ "/" ++ name ++ ".zip") = some b2 := by
  refine ⟨writeFileW fs (dir ++ "/" ++ name ++ ".zip") b1,
    writeFileW (writeFileW fs (dir ++ "/" ++ name ++ ".zip") b1)
      (dir ++ "/" ++ name ++ ".zip") b2, ?_, ?_, ?_⟩
  · exact download_one_redirect S1 fs api pid dir name l1 plist b1 c1 o1 m1
      hn h10 h11
  · exact download_one_redirect S2 _ api pid dir name l2 plist b2 c2 o2 m2
      hn h20 h21
  · simp [writeFileW]

/-- First download session for the C9 witness: one redirect to `L1`, then
a 200 with body `[1, 2]`. -/
def demoServerA : String → DlResponse := fun u =>
  if u = "API(p1)/$value" then ⟨302, some "L1", []⟩
  else if u = "L1" then ⟨200, none, [1, 2]⟩
  else ⟨404, none, []⟩

/-- Second download session for the C9 witness: one redirect to `L1`, then
a 200 with body `[9]`. -/
def demoServerB : String → DlResponse := fun u =>
  if u = "API(p1)/$value" then ⟨302, some "L1", []⟩
  else if u = "L1" then ⟨200, none, [9]⟩
  else ⟨404, none, []⟩

/-- C9, witness: downloading `p1` twice into `dl` (bodies `[1, 2]` then
`[9]`) leaves `dl/n1.zip` holding exactly `[9]`. -/
theorem C9_witness :
    ∃ fs1 fs2 : FS,
      download demoServerA emptyFS "API" [⟨"p1", "n1", true⟩] "p1" "dl" 1 =
        .ok (fs1, "dl" ++ "/" ++ "n1" ++ ".zip", [1, 2],
          ([1, 2] : List Nat).length) ∧
      download demoServerB fs1 "API" [⟨"p1", "n1", true⟩] "p1" "dl" 1 =
        .ok (fs2, "dl" ++ "/" ++ "n1" ++ ".zip", [9],
          ([9] : List Nat).length) ∧
      fs2 ("dl" ++ "/" ++ "n1" ++ ".zip") = some [9] :=
  C9_download_overwrites demoServerA demoServerB emptyFS "API" "p1" "dl" "n1"
    "L1" "L1" [⟨"p1", "n1", true⟩] [1, 2] [9] [] [] none none 0 0
    (by decide) (by decide) (by decide) (by decide) (by decide)

/-! ## Claim C5 -/

set_option maxRecDepth 20000 in
/-- C5, counterexample: the clauses need not appear exactly once.  With the
footprint field set to the text of the start-date clause (the builder does
not validate or escape its inputs), the start-date bound clause occurs
twice in the built filter expression — once spliced as the footprint, once
as the real date bound — refuting "each exactly once" for non-empty
criteria. -/
theorem C5_counterexample :
    countSub
      (startClause
        ⟨"s", "e", "C", "ContentDate/Start gt sT00:00:00.000Z", 20, "M", "d"⟩).data
      (create_url_process
        ⟨"s", "e", "C", "ContentDate/Start gt sT00:00:00.000Z", 20, "M", "d"⟩).data
      = 2 := by decide

/-- C5 (amended): for every SearchCriteria with all fields present and
non-empty, the built filter expression contains each of the six clauses —
collection-name equality, spatial intersection with the given footprint,
both date bounds, the cloud-cover ceiling and the product-type substring
clause — at least once; occurrence is exactly single only when the field
values do not themselves embed clause text (`C5_counterexample`). -/
theorem C5_filter_contains_each_clause (c : Config)
    (_h1 : c.start_date ≠ "") (_h2 : c.end_date ≠ "")
    (_h3 : c.data_collection ≠ "") (_h4 : c.aoi ≠ "")
    (_h5 : c.product_type ≠ "") :
    strContains (create_url_process c) (collectionClause c) ∧
    strContains (create_url_process c) (spatialClause c) ∧
    strContains (create_url_process c) (startClause c) ∧
    strContains (create_url_process c) (endClause c) ∧
    strContains (create_url_process c) (cloudClause c) ∧
    strContains (create_url_process c) (typeClause c) := by
  refine
    ⟨⟨"https://catalogue.dataspace.copernicus.eu/odata/v1/Products?$filter=",
      " and " ++ spatialClause c ++ " and " ++ startClause c ++ " and "
        ++ endClause c ++ " and " ++ cloudClause c ++ " and " ++ typeClause c,
      ?_⟩,
    ⟨"https://catalogue.dataspace.copernicus.eu/odata/v1/Products?$filter="
        ++ collectionClause c ++ " and ",
      " and " ++ startClause c ++ " and " ++ endClause c ++ " and "
        ++ cloudClause c ++ " and " ++ typeClause c, ?_⟩,
    ⟨"https://catalogue.dataspace.copernicus.eu/odata/v1/Products?$filter="
        ++ collectionClause c ++ " and " ++ spatialClause c ++ " and ",
      " and " ++ endClause c ++ " and " ++ cloudClause c ++ " and "
        ++ typeClause c, ?_⟩,
    ⟨"https://catalogue.dataspace.copernicus.eu/odata/v1/Products?$filter="
        ++ collectionClause c ++ " and " ++ spatialClause c ++ " and "
        ++ startClause c ++ " and ",
      " and " ++ cloudClause c ++ " and " ++ typeClause c, ?_⟩,
    ⟨"https://catalogue.dataspace.copernicus.eu/odata/v1/Products?$filter="
        ++ collectionClause c ++ " and " ++ spatialClause c ++ " and "
        ++ startClause c ++ " and " ++ endClause c ++ " and ",
      " and " ++ typeClause c, ?_⟩,
    ⟨"https://catalogue.dataspace.copernicus.eu/odata/v1/Products?$filter="
        ++ collectionClause c ++ " and " ++ spatialClause c ++ " and "
        ++ startClause c ++ " and " ++ endClause c ++ " and "
        ++ cloudClause c ++ " and ",
      "", ?_⟩⟩ <;>
  simp [create_url_process, String.append_assoc]

/-- C5, witness: the amended theorem evaluated at the usage-example
criteria of sentinelv2.py. -/
theorem C5_witness :
    strContains
      (create_url_process
        ⟨"2023-08-01", "2023-08-30", "SENTINEL-2", "POLY", 20, "MSIL1C", "d"⟩)
      (collectionClause
        ⟨"2023-08-01", "2023-08-30", "SENTINEL-2", "POLY", 20, "MSIL1C", "d"⟩) ∧
    strContains
      (create_url_process
        ⟨"2023-08-01", "2023-08-30", "SENTINEL-2", "POLY", 20, "MSIL1C", "d"⟩)
      (spatialClause
        ⟨"2023-08-01", "2023-08-30", "SENTINEL-2", "POLY", 20, "MSIL1C", "d"⟩) ∧
    strContains
      (create_url_process
        ⟨"2023-08-01", "2023-08-30", "SENTINEL-2", "POLY", 20, "MSIL1C", "d"⟩)
      (startClause
        ⟨"2023-08-01", "2023-08-30", "SENTINEL-2", "POLY", 20, "MSIL1C", "d"⟩) ∧
    strContains
      (create_url_process
        ⟨"2023-08-01", "2023-08-30", "SENTINEL-2", "POLY", 20, "MSIL1C", "d"⟩)
      (endClause
        ⟨"2023-08-01", "2023-08-30", "SENTINEL-2", "POLY", 20, "MSIL1C", "d"⟩) ∧
    strContains
      (create_url_process
        ⟨"2023-08-01", "2023-08-30", "SENTINEL-2", "POLY", 20, "MSIL1C", "d"⟩)
      (cloudClause
        ⟨"2023-08-01", "2023-08-30", "SENTINEL-2", "POLY", 20, "MSIL1C", "d"⟩) ∧
    strContains
      (create_url_process
        ⟨"2023-08-01", "2023-08-30", "SENTINEL-2", "POLY", 20, "MSIL1C", "d"⟩)
      (typeClause
        ⟨"2023-08-01", "2023-08-30", "SENTINEL-2", "POLY", 20, "MSIL1C", "d"⟩) :=
  C5_filter_contains_each_clause
    ⟨"2023-08-01", "2023-08-30", "SENTINEL-2", "POLY", 20, "MSIL1C", "d"⟩
    (by decide) (by decide) (by decide) (by decide) (by decide)

/-! ## Claim C6 -/

set_option maxRecDepth 20000 in
/-- C6, counterexample: the start bound is exclusive, not inclusive.  At
the usage-example criteria, the built filter contains the strict clause
`ContentDate/Start gt 2023-08-01T00:00:00.000Z` (and no `ge` operator
anywhere); at an acquisition time `t` equal to the start midnight
timestamp (here both 0), the emitted `gt`/`lt` pair rejects the product
(`dateFilterSem 0 5 0 = false`) while the claimed inclusive-exclusive
range `start <= t < end` accepts it (`specDateSem 0 5 0 = true`). -/
theorem C6_counterexample :
    countSub
      (startClause
        ⟨"2023-08-01", "2023-08-30", "SENTINEL-2", "P", 20, "M", "d"⟩).data
      (create_url_process
        ⟨"2023-08-01", "2023-08-30", "SENTINEL-2", "P", 20, "M", "d"⟩).data = 1 ∧
    countSub ("ContentDate/Start ge ".data)
      (create_url_process
        ⟨"2023-08-01", "2023-08-30", "SENTINEL-2", "P", 20, "M", "d"⟩).data = 0 ∧
    dateFilterSem 0 5 0 = false ∧ specDateSem 0 5 0 = true :=
  ⟨by decide, by decide, by decide, by decide⟩

/-- C6 (amended): the date constraint in the built filter denotes the open
range `start < acquisition-start < end`: both bounds are strict (`gt` and
`lt` against the midnight-UTC timestamps), so the start bound is exclusive,
not inclusive. -/
theorem C6_date_range_open (c : Config) :
    strContains (create_url_process c) (startClause c) ∧
    strContains (create_url_process c) (endClause c) ∧
    (∀ s e t : Int, dateFilterSem s e t = true ↔ s < t ∧ t < e) := by
  refine
    ⟨⟨"https://catalogue.dataspace.copernicus.eu/odata/v1/Products?$filter="
        ++ collectionClause c ++ " and " ++ spatialClause c ++ " and ",
      " and " ++ endClause c ++ " and " ++ cloudClause c ++ " and "
        ++ typeClause c, ?_⟩,
    ⟨"https://catalogue.dataspace.copernicus.eu/odata/v1/Products?$filter="
        ++ collectionClause c ++ " and " ++ spatialClause c ++ " and "
        ++ startClause c ++ " and ",
      " and " ++ cloudClause c ++ " and " ++ typeClause c, ?_⟩, ?_⟩
  · simp [create_url_process, String.append_assoc]
  · simp [create_url_process, String.append_assoc]
  · intro s e t
    simp [dateFilterSem]

end S2D
